import Mathlib

set_option maxHeartbeats 1000000
set_option maxRecDepth 10000

/-!
Shallow embedding of the speedy.js code-generation core:

* the diagnostic subsystem (`code-generation-diagnostic.ts`):
  `CodeGenerationDiagnostic` with its asserting constructor, `toDiagnostic`,
  the `util.format`-based `createException` helper, the full factory catalog
  and the `diagnostics` message/code table;
* the type mapper (`toLLVMType` / `isMaybeObjectType`);
* the Math built-in object lowering (`MathObjectReference.createFunctionFor`,
  `createPowFunction`, `createSqrtFunction`).

Thrown JavaScript errors are modelled with `Except CgError`: a thrown
`CodeGenerationDiagnostic` becomes `.error (.diagnostic d)`, a plain
`new Error(msg)` becomes `.error (.genericError msg)` and a failed
`assert` becomes `.error (.assertionFailure msg)`.  Mutation of the LLVM
module is modelled by explicitly returning the updated module.
-/

/-- Category of a host compiler diagnostic (`ts.DiagnosticCategory`). -/
inductive DiagnosticCategory where
  | warning
  | error
  | suggestion
  | message
deriving DecidableEq

/-- Model of a host syntax node (`ts.Node`): the source-position data read by
`toDiagnostic` (`getFullStart`, `getFullWidth`, `getSourceFile`), plus the
oracle projections various diagnostic factories read from specific node kinds
(`identifier.text`, `property.name.text`, `ts.SyntaxKind[...]` names for the
operator token, the unary operator and the node kind). -/
structure TsNode where
  fullStart : Nat
  fullWidth : Nat
  sourceFile : String
  text : String
  nameText : String
  operatorTokenKindName : String
  operatorKindName : String
  kindName : String
deriving DecidableEq

/-- The host compiler's diagnostic record shape (`ts.Diagnostic`). -/
structure TsDiagnostic where
  code : Int
  messageText : String
  start : Nat
  length : Nat
  category : DiagnosticCategory
  file : String
deriving DecidableEq

/-- The diagnostic value of `code-generation-diagnostic.ts`: a source node
anchor, a numeric code and a message. -/
structure CodeGenerationDiagnostic where
  node : TsNode
  code : Int
  message : String
deriving DecidableEq

/-- Failure modes of the embedded code: a thrown `CodeGenerationDiagnostic`,
a plain thrown `new Error(message)`, and a failed `assert(cond, message)`. -/
inductive CgError where
  | diagnostic (d : CodeGenerationDiagnostic)
  | genericError (message : String)
  | assertionFailure (message : String)
deriving DecidableEq

/-- The `CodeGenerationDiagnostic` constructor.  It runs
`assert(node); assert(code); assert(message)`, so construction fails on a
missing node (modelled by `Option`), a code of `0` (the only falsy number
reaching the numeric assert) or an empty message.  The assert messages are
the ones in the source. -/
def CodeGenerationDiagnostic.construct (node : Option TsNode) (code : Int)
    (message : String) : Except CgError CodeGenerationDiagnostic :=
  match node with
  | none => .error (.assertionFailure "Node is not defined")
  | some n =>
    if code = 0 then .error (.assertionFailure "code is not defined")
    else if message = "" then .error (.assertionFailure "message is not defined")
    else .ok ⟨n, code, message⟩

/-- `CodeGenerationDiagnostic.toDiagnostic`: conversion to the host
compiler's diagnostic record. -/
def CodeGenerationDiagnostic.toDiagnostic (d : CodeGenerationDiagnostic) : TsDiagnostic :=
  ⟨d.code, d.message, d.node.fullStart, d.node.fullWidth, .error, d.node.sourceFile⟩

/-- Extra arguments that `util.format` received beyond the `%s` placeholders
of the format string are appended, each preceded by a space. -/
def appendExtras : List String → List Char
  | [] => []
  | a :: rest => ' ' :: (a.data ++ appendExtras rest)

/-- Character-level core of Node's `util.format` restricted to the `%s`
placeholder (the only one the diagnostic catalog uses): each `%s` with a
remaining argument is replaced by that argument, a `%s` without a remaining
argument is kept literally, and leftover arguments are appended. -/
def formatChars : List Char → List String → List Char
  | [], args => appendExtras args
  | '%' :: 's' :: rest, a :: args => a.data ++ formatChars rest args
  | c :: rest, args => c :: formatChars rest args

/-- Node's `util.format(message, ...args)` as used by `createException`. -/
def utilFormat (fmt : String) (args : List String) : String :=
  ⟨formatChars fmt.data args⟩

/-- One entry of the `diagnostics` table: a format string and a stable code. -/
structure DiagnosticMessage where
  message : String
  code : Int
deriving DecidableEq

def diagnostics.BuiltInMethodNotSupported : DiagnosticMessage :=
  ⟨"The method '%s' of the built in object '%s' is not supported.", 100000⟩

def diagnostics.BuiltInPropertyNotSupported : DiagnosticMessage :=
  ⟨"The property '%s' of the built in object '%s' is not supported.", 100001⟩

def diagnostics.BuiltInObjectDoesNotSupportElementAccess : DiagnosticMessage :=
  ⟨"The built in object '%s' does not support element access (%s[index] or $s[index]=value).", 100002⟩

def diagnostics.UnsupportedBuiltInClass : DiagnosticMessage :=
  ⟨"The class referenced by this identifier is not supported.", 100003⟩

def diagnostics.UnsupportedLiteralType : DiagnosticMessage :=
  ⟨"The literal type '%s' is not supported.", 100004⟩

def diagnostics.UnsupportedType : DiagnosticMessage :=
  ⟨"The type '%s' is not supported.", 100005⟩

def diagnostics.UnsupportedIdentifier : DiagnosticMessage :=
  ⟨"Unsupported type or kind of identifier '%s'.", 100006⟩

def diagnostics.UnsupportedBinaryOperation : DiagnosticMessage :=
  ⟨"The binary operator %s is not supported for the left and right hand side types '%s' and '%s'.", 100007⟩

def diagnostics.UnsupportedUnaryOperation : DiagnosticMessage :=
  ⟨"The unary operator %s is not supported for the type '%s'.", 100008⟩

def diagnostics.AnonymousEntryFunctionsUnsupported : DiagnosticMessage :=
  ⟨"SpeedyJS entry functions need to have a name.", 100009⟩

def diagnostics.ReferenceToNonEntrySpeedyJSFunctionFromJS : DiagnosticMessage :=
  ⟨"SpeedyJS functions referenced from 'normal' JavaScript code needs to be async (the async modifier is missing on the declaration of '%s').", 100010⟩

def diagnostics.OptionalParametersNotSupportedForEntryFunction : DiagnosticMessage :=
  ⟨"Optional parameters or variadic parameters are not supported for SpeedyJS entry functions.", 100011⟩

def diagnostics.GenericEntryFunctionNotSuppoorted : DiagnosticMessage :=
  ⟨"Generic SpeedyJS entry functions are not supported.", 100012⟩

def diagnostics.OverloadedEntryFunctionNotSupported : DiagnosticMessage :=
  ⟨"SpeedyJS entry function cannot be overloaded.", 100013⟩

def diagnostics.UnsupportedSyntaxKind : DiagnosticMessage :=
  ⟨"The syntax kind '%s' is not yet supported.", 100014⟩

def diagnostics.UnsupportedProperty : DiagnosticMessage :=
  ⟨"The kind of property is not yet supported, only object properties are supported.", 1000015⟩

def diagnostics.UnsupportedIndexer : DiagnosticMessage :=
  ⟨"The kind of indexer is not yet supported", 1000016⟩

def diagnostics.UnsupportedCast : DiagnosticMessage :=
  ⟨"Casting from '%s' to '%s' is not yet supported", 1000017⟩

def diagnostics.UnsupportedImplicitArrayElementCast : DiagnosticMessage :=
  ⟨"The array element of type '%s' requires an implicit cast to the array element type '%s'. Implicit casts are not supported. An explicit cast of the element to the array element type is required.", 1000018⟩

def diagnostics.UnsupportedImplicitCastOfBinaryExpressionOperands : DiagnosticMessage :=
  ⟨"No implicit cast for the binary expressions operands (left: %s, right: %s) exists. An explicit cast of either of the operands to the other's type is required.", 1000019⟩

def diagnostics.UnsupportedImplicitCastOfArgument : DiagnosticMessage :=
  ⟨"Unsupported implicit cast of the argument with the type '%s' to the expected parameter type '%s'. An explicit cast of the argument to the type '%s' is required.", 1000020⟩

def diagnostics.UnsupportedImplicitCastOfConditionalResult : DiagnosticMessage :=
  ⟨"Unsupported implicit cast of conditional case with type '%s' to the type '%s' of the whole conditional expression. An explicit cast of the conditional case to the type '%s' is required.", 1000021⟩

def diagnostics.UnsupportedElementAccessExpression : DiagnosticMessage :=
  ⟨"Unsupported element access expression with indexer of type '%s'. Only element access expressions with an integer index are supported.", 1000022⟩

def diagnostics.UnsupportedImplicitCastOfReturnValue : DiagnosticMessage :=
  ⟨"Unsupported implicit cast of return value with the type '%s' to function's return type '%s'. An explicit cast of the return value to the expected return type '%s' is required.", 1000023⟩

def diagnostics.UnsupportedImplicitCast : DiagnosticMessage :=
  ⟨"Unsupported implicit cast of value with the type '%s' to the expected type '%s'. An explicit cast of the value to the type '%s' is required.", 1000024⟩

def diagnostics.UnsupportedGenericFunction : DiagnosticMessage :=
  ⟨"Generic functions and methods are not yet supported.", 1000025⟩

def diagnostics.UnsupportedStaticProperty : DiagnosticMessage :=
  ⟨"Static methods and properties are not yet supported.", 1000026⟩

def diagnostics.UnsupportedNestedFunctionDeclaration : DiagnosticMessage :=
  ⟨"Functions nested inside of other functions that potentially make use of a closure are not yet supported", 1000027⟩

def diagnostics.UnsupportedFunctionDeclaration : DiagnosticMessage :=
  ⟨"Unsupported function declaration. Only function and method declarations are supported.", 1000028⟩

def diagnostics.UnsupportedVarDeclaration : DiagnosticMessage :=
  ⟨"Unsupported 'var' declaration of variable. Only variables with block scope ('let' and 'const') are supported.", 1000029⟩

def diagnostics.UnsupportedOverloadedFunctionDeclaration : DiagnosticMessage :=
  ⟨"Overloaded functions are not yet supported.", 1000030⟩

def diagnostics.UnsupportedGenericClass : DiagnosticMessage :=
  ⟨"Generic classes are not yet supported.", 1000031⟩

def diagnostics.UnsupportedClassInheritance : DiagnosticMessage :=
  ⟨"Class inheritance is not yet supported.", 1000032⟩

/-- `CodeGenerationDiagnostic.createException`: formats the message with
`util.format` and invokes the asserting constructor.  The `.ok` result is
the diagnostic value the factory hands back to its caller. -/
def CodeGenerationDiagnostic.createException (node : TsNode)
    (diagnostic : DiagnosticMessage) (args : List String) :
    Except CgError CodeGenerationDiagnostic :=
  CodeGenerationDiagnostic.construct (some node) diagnostic.code
    (utilFormat diagnostic.message args)

def CodeGenerationDiagnostic.builtInMethodNotSupported
    (propertyAccessExpression : TsNode) (objectName : String) (methodName : String) :
    Except CgError CodeGenerationDiagnostic :=
  CodeGenerationDiagnostic.createException propertyAccessExpression
    diagnostics.BuiltInMethodNotSupported [methodName, objectName]

def CodeGenerationDiagnostic.builtInPropertyNotSupported
    (property : TsNode) (objectName : String) :
    Except CgError CodeGenerationDiagnostic :=
  CodeGenerationDiagnostic.createException property
    diagnostics.BuiltInPropertyNotSupported [property.nameText, objectName]

def CodeGenerationDiagnostic.builtInDoesNotSupportElementAccess
    (element : TsNode) (objectName : String) :
    Except CgError CodeGenerationDiagnostic :=
  CodeGenerationDiagnostic.createException element
    diagnostics.BuiltInObjectDoesNotSupportElementAccess [objectName]

def CodeGenerationDiagnostic.unsupportedLiteralType (node : TsNode)
    (typeName : String) : Except CgError CodeGenerationDiagnostic :=
  CodeGenerationDiagnostic.createException node
    diagnostics.UnsupportedLiteralType [typeName]

def CodeGenerationDiagnostic.unsupportedType (node : TsNode)
    (typeName : String) : Except CgError CodeGenerationDiagnostic :=
  CodeGenerationDiagnostic.createException node
    diagnostics.UnsupportedType [typeName]

def CodeGenerationDiagnostic.unsupportedIdentifier (identifier : TsNode) :
    Except CgError CodeGenerationDiagnostic :=
  CodeGenerationDiagnostic.createException identifier
    diagnostics.UnsupportedIdentifier [identifier.text]

def CodeGenerationDiagnostic.unsupportedBinaryOperation (binaryExpression : TsNode)
    (leftType : String) (rightType : String) :
    Except CgError CodeGenerationDiagnostic :=
  CodeGenerationDiagnostic.createException binaryExpression
    diagnostics.UnsupportedBinaryOperation
    [binaryExpression.operatorTokenKindName, leftType, rightType]

def CodeGenerationDiagnostic.unsupportedUnaryOperation (node : TsNode)
    (typeName : String) : Except CgError CodeGenerationDiagnostic :=
  CodeGenerationDiagnostic.createException node
    diagnostics.UnsupportedUnaryOperation [node.operatorKindName, typeName]

def CodeGenerationDiagnostic.anonymousEntryFunctionsNotSupported (fn : TsNode) :
    Except CgError CodeGenerationDiagnostic :=
  CodeGenerationDiagnostic.createException fn
    diagnostics.AnonymousEntryFunctionsUnsupported []

def CodeGenerationDiagnostic.optionalParametersInEntryFunctionNotSupported
    (optionalParameter : TsNode) : Except CgError CodeGenerationDiagnostic :=
  CodeGenerationDiagnostic.createException optionalParameter
    diagnostics.OptionalParametersNotSupportedForEntryFunction []

def CodeGenerationDiagnostic.genericEntryFunctionNotSupported (fn : TsNode) :
    Except CgError CodeGenerationDiagnostic :=
  CodeGenerationDiagnostic.createException fn
    diagnostics.GenericEntryFunctionNotSuppoorted []

def CodeGenerationDiagnostic.unsupportedClassReferencedBy (identifier : TsNode) :
    Except CgError CodeGenerationDiagnostic :=
  CodeGenerationDiagnostic.createException identifier
    diagnostics.UnsupportedBuiltInClass []

def CodeGenerationDiagnostic.referenceToNonSpeedyJSEntryFunctionFromJS
    (identifier : TsNode) (speedyJSFunctionSymbolName : String) :
    Except CgError CodeGenerationDiagnostic :=
  CodeGenerationDiagnostic.createException identifier
    diagnostics.ReferenceToNonEntrySpeedyJSFunctionFromJS [speedyJSFunctionSymbolName]

def CodeGenerationDiagnostic.overloadedEntryFunctionNotSupported (fn : TsNode) :
    Except CgError CodeGenerationDiagnostic :=
  CodeGenerationDiagnostic.createException fn
    diagnostics.OverloadedEntryFunctionNotSupported []

def CodeGenerationDiagnostic.unsupportedSyntaxKind (node : TsNode) :
    Except CgError CodeGenerationDiagnostic :=
  CodeGenerationDiagnostic.createException node
    diagnostics.UnsupportedSyntaxKind [node.kindName]

def CodeGenerationDiagnostic.unsupportedProperty (propertyExpression : TsNode) :
    Except CgError CodeGenerationDiagnostic :=
  CodeGenerationDiagnostic.createException propertyExpression
    diagnostics.UnsupportedProperty []

def CodeGenerationDiagnostic.unsupportedIndexer (node : TsNode) :
    Except CgError CodeGenerationDiagnostic :=
  CodeGenerationDiagnostic.createException node
    diagnostics.UnsupportedIndexer []

def CodeGenerationDiagnostic.unsupportedCast (node : TsNode)
    (sourceType : String) (targetType : String) :
    Except CgError CodeGenerationDiagnostic :=
  CodeGenerationDiagnostic.createException node
    diagnostics.UnsupportedCast [sourceType, targetType]

def CodeGenerationDiagnostic.implicitArrayElementCast (element : TsNode)
    (arrayElementType : String) (typeOfElementRequiringImplicitCast : String) :
    Except CgError CodeGenerationDiagnostic :=
  CodeGenerationDiagnostic.createException element
    diagnostics.UnsupportedImplicitArrayElementCast
    [typeOfElementRequiringImplicitCast, arrayElementType]

def CodeGenerationDiagnostic.unsupportedImplicitCastOfBinaryExpressionOperands
    (binaryExpression : TsNode) (leftOperandType : String) (rightOperandType : String) :
    Except CgError CodeGenerationDiagnostic :=
  CodeGenerationDiagnostic.createException binaryExpression
    diagnostics.UnsupportedImplicitCastOfBinaryExpressionOperands
    [leftOperandType, rightOperandType]

def CodeGenerationDiagnostic.unsupportedImplicitCastOfArgument
    (elementNotMatchingArrayElementType : TsNode) (parameterType : String)
    (argumentType : String) : Except CgError CodeGenerationDiagnostic :=
  CodeGenerationDiagnostic.createException elementNotMatchingArrayElementType
    diagnostics.UnsupportedImplicitCastOfArgument
    [argumentType, parameterType, parameterType]

def CodeGenerationDiagnostic.unsupportedImplicitCastOfConditionalResult
    (conditionalResult : TsNode) (typeOfConditional : String)
    (typeOfConditionResult : String) : Except CgError CodeGenerationDiagnostic :=
  CodeGenerationDiagnostic.createException conditionalResult
    diagnostics.UnsupportedImplicitCastOfConditionalResult
    [typeOfConditionResult, typeOfConditional, typeOfConditional]

def CodeGenerationDiagnostic.unsupportedElementAccessExpression
    (elementAccessExpression : TsNode) (argumentExpressionType : Option String) :
    Except CgError CodeGenerationDiagnostic :=
  CodeGenerationDiagnostic.createException elementAccessExpression
    diagnostics.UnsupportedElementAccessExpression
    [argumentExpressionType.getD "undefined"]

def CodeGenerationDiagnostic.unsupportedImplicitCastOfReturnValue
    (returnStatement : TsNode) (declaredReturnType : String)
    (returnStatementExpressionType : String) :
    Except CgError CodeGenerationDiagnostic :=
  CodeGenerationDiagnostic.createException returnStatement
    diagnostics.UnsupportedImplicitCastOfReturnValue
    [returnStatementExpressionType, declaredReturnType, declaredReturnType]

def CodeGenerationDiagnostic.unsupportedImplicitCast (node : TsNode)
    (castTargetType : String) (actualValueType : String) :
    Except CgError CodeGenerationDiagnostic :=
  CodeGenerationDiagnostic.createException node
    diagnostics.UnsupportedImplicitCast
    [actualValueType, castTargetType, castTargetType]

/-- `unsupportedFunctionDeclaration` is the one factory in the source that
`throw`s the created exception instead of returning it; the throw is
modelled as an `.error` carrying the diagnostic. -/
def CodeGenerationDiagnostic.unsupportedFunctionDeclaration (declaration : TsNode) :
    Except CgError CodeGenerationDiagnostic :=
  match CodeGenerationDiagnostic.createException declaration
      diagnostics.UnsupportedFunctionDeclaration [] with
  | .ok d => .error (.diagnostic d)
  | .error e => .error e

def CodeGenerationDiagnostic.unsupportedGenericFunction (functionDeclaration : TsNode) :
    Except CgError CodeGenerationDiagnostic :=
  CodeGenerationDiagnostic.createException functionDeclaration
    diagnostics.UnsupportedGenericFunction []

def CodeGenerationDiagnostic.unsupportedStaticProperties (propertyExpression : TsNode) :
    Except CgError CodeGenerationDiagnostic :=
  CodeGenerationDiagnostic.createException propertyExpression
    diagnostics.UnsupportedStaticProperty []

def CodeGenerationDiagnostic.unsupportedNestedFunctionDeclaration
    (functionDeclaration : TsNode) : Except CgError CodeGenerationDiagnostic :=
  CodeGenerationDiagnostic.createException functionDeclaration
    diagnostics.UnsupportedNestedFunctionDeclaration []

def CodeGenerationDiagnostic.variableDeclarationList
    (variableDeclarationListNode : TsNode) : Except CgError CodeGenerationDiagnostic :=
  CodeGenerationDiagnostic.createException variableDeclarationListNode
    diagnostics.UnsupportedVarDeclaration []

def CodeGenerationDiagnostic.unsupportedOverloadedFunctionDeclaration
    (declaration : TsNode) : Except CgError CodeGenerationDiagnostic :=
  CodeGenerationDiagnostic.createException declaration
    diagnostics.UnsupportedOverloadedFunctionDeclaration []

def CodeGenerationDiagnostic.unsupportedGenericClass (classDeclaration : TsNode) :
    Except CgError CodeGenerationDiagnostic :=
  CodeGenerationDiagnostic.createException classDeclaration
    diagnostics.UnsupportedGenericClass []

def CodeGenerationDiagnostic.unsupportedClassInheritance (classDeclaration : TsNode) :
    Except CgError CodeGenerationDiagnostic :=
  CodeGenerationDiagnostic.createException classDeclaration
    diagnostics.UnsupportedClassInheritance []

/-- LLVM target types produced by the type mapper (`llvm.Type`):
`getInt32Ty`, `getDoubleTy`, `getInt1Ty`, `getVoidTy`, `getInt8PtrTy`
(modelled as `ptr i8`), named struct layouts and pointers. -/
inductive LLVMType where
  | i1
  | i8
  | i32
  | f64
  | voidType
  | structType (name : String)
  | ptr (pointee : LLVMType)
deriving DecidableEq

/-- `llvm.FunctionType.get(returnType, paramTypes, isVarArg)`. -/
structure LLVMFunctionType where
  returnType : LLVMType
  parameterTypes : List LLVMType
  isVarArg : Bool
deriving DecidableEq

/-- Linkage of a declared function (`llvm.LinkageTypes`). -/
inductive Linkage where
  | externalLinkage
deriving DecidableEq

/-- A function declared in the target module (`llvm.Function`). -/
structure LLVMFunction where
  name : String
  functionType : LLVMFunctionType
  linkage : Linkage
deriving DecidableEq

/-- The target module (`llvm.Module`), holding the declared functions. -/
structure LLVMModule where
  functions : List LLVMFunction
deriving DecidableEq

/-- `module.getFunction(name)`: look a declared function up by name. -/
def LLVMModule.getFunction (m : LLVMModule) (name : String) : Option LLVMFunction :=
  m.functions.find? (fun f => f.name == name)

/-- The relevant bits of `ts.TypeFlags`.  `toLLVMType` tests the flag
bitmask of a type with `&` against `IntLike`, `NumberLike`, `BooleanLike`,
`Any`, `Void`, `Undefined`, `Object` and `Union`; each field models whether
the corresponding test is true for the type. -/
structure TypeFlags where
  intLike : Bool
  numberLike : Bool
  booleanLike : Bool
  anyFlag : Bool
  voidFlag : Bool
  undefinedFlag : Bool
  objectFlag : Bool
  unionFlag : Bool
deriving DecidableEq

/-- A host symbol (`ts.Symbol`): its name and its declaration nodes. -/
structure TsSymbol where
  name : String
  declarations : List TsNode
deriving DecidableEq

/-- A non-union constituent of a type: its flags and optional symbol.
The host checker keeps unions flat, so union members are atoms. -/
structure AtomType where
  flags : TypeFlags
  symbol : Option TsSymbol
deriving DecidableEq

/-- A host type (`ts.Type`): either an atom, or a union carrying its own
flag set, its constituent list (`(type as ts.UnionType).types`) and an
optional symbol. -/
inductive TsType where
  | atom : AtomType → TsType
  | unionType : TypeFlags → List AtomType → Option TsSymbol → TsType
deriving DecidableEq

/-- `type.flags`. -/
def TsType.flags : TsType → TypeFlags
  | .atom a => a.flags
  | .unionType fl _ _ => fl

/-- `(type as ts.UnionType).types`: the constituents (empty for atoms). -/
def TsType.typesOf : TsType → List AtomType
  | .atom _ => []
  | .unionType _ members _ => members

/-- `type.getSymbol()`. -/
def TsType.getSymbol : TsType → Option TsSymbol
  | .atom a => a.symbol
  | .unionType _ _ symbol => symbol

/-- `type.getNonNullableType()`, a host checker oracle: it removes the
nullable constituents (`undefined`) from a union; when exactly one
constituent remains that constituent is the result, and when everything was
removed the checker's bottom type (modelled as a flagless atom) results.
Atoms are their own non-nullable type. -/
def TsType.getNonNullableType : TsType → TsType
  | .atom a => .atom a
  | .unionType _ members _ =>
    match members.filter (fun m => !m.flags.undefinedFlag) with
    | [x] => .atom x
    | _ => .atom ⟨⟨false, false, false, false, false, false, false, false⟩, none⟩

/-- Number of union layers of a type; the termination measure of the type
mapper (its single recursive call goes from a union to a constituent). -/
def TsType.unionDepth : TsType → Nat
  | .atom _ => 0
  | .unionType _ _ _ => 1

/-- `isMaybeObjectType` (util of the type mapper): a union of exactly two
constituents, one carrying the `Undefined` flag and one the `Object` flag. -/
def isMaybeObjectType (type0 : TsType) : Bool :=
  if type0.flags.unionFlag then
    type0.typesOf.length == 2 &&
      type0.typesOf.any (fun t => t.flags.undefinedFlag) &&
      type0.typesOf.any (fun t => t.flags.objectFlag)
  else false

/-- Modelled from the spec: the class-resolution result
(`class-reference.ts` is not part of the sources).  `getLLVMType` yields
the class's generated struct layout for an object type; the type mapper
returns a pointer to it. -/
structure ClassReference where
  getLLVMType : TsType → LLVMType

/-- The slice of `CodeGenerationContext` the embedded code reads: the target
module, the class-resolution lookup (`context.resolveClass`) and the checker
oracle `context.typeChecker.typeToString`. -/
structure CodeGenerationContext where
  module : LLVMModule
  resolveClass : TsType → Option ClassReference
  typeToString : TsType → String

/-- Rethrow helper: a factory result that the caller `throw`s instead of
returning. -/
def raiseAsError {α : Type} (r : Except CgError CodeGenerationDiagnostic) :
    Except CgError α :=
  match r with
  | .ok d => .error (.diagnostic d)
  | .error e => .error e

/-- The type mapper `toLLVMType(type, context)`: the ordered flag tests of
the source, first match winning; the `any` branch throws a plain `Error`,
the unresolvable tail throws `UnsupportedType` when a declaration site
exists and a plain `Error` otherwise. -/
def toLLVMType (context : CodeGenerationContext) (type0 : TsType) :
    Except CgError LLVMType :=
  if type0.flags.intLike then .ok .i32
  else if type0.flags.numberLike then .ok .f64
  else if type0.flags.booleanLike then .ok .i1
  else if type0.flags.anyFlag then
    .error (.genericError "Any type not supported, annotate the type")
  else if type0.flags.voidFlag then .ok .voidType
  else if type0.flags.undefinedFlag then .ok (.ptr .i8)
  else
    match
      (if type0.flags.objectFlag then
        match context.resolveClass type0 with
        | some classReference => some (LLVMType.ptr (classReference.getLLVMType type0))
        | none => none
      else none)
    with
    | some mapped => .ok mapped
    | none =>
      if _h : isMaybeObjectType type0 then
        toLLVMType context type0.getNonNullableType
      else
        match type0.getSymbol with
        | some sym =>
          match sym.declarations with
          | firstDeclaration :: _ =>
            raiseAsError (CodeGenerationDiagnostic.unsupportedType firstDeclaration
              (context.typeToString type0))
          | [] => .error (.genericError ("Unsupported type " ++ context.typeToString type0))
        | none => .error (.genericError ("Unsupported type " ++ context.typeToString type0))
termination_by type0.unionDepth
decreasing_by
  cases type0 with
  | atom a =>
    simp [isMaybeObjectType, TsType.typesOf, TsType.flags] at _h
  | unionType fl members symbol =>
    simp only [TsType.getNonNullableType]
    split <;> simp [TsType.unionDepth]

/-- A resolved parameter: name and source type (`resolved-function.ts`). -/
structure ResolvedParameter where
  name : String
  paramType : TsType
deriving DecidableEq

/-- Modelled from the spec: the normalized callable descriptor
`ResolvedFunction` (`resolved-function.ts` is not part of the sources) —
name, ordered parameters, return type, optional declaring object type,
`instanceMethod` flag and optional originating declaration node. -/
structure ResolvedFunction where
  functionName : String
  typeParameters : List String
  parameters : List ResolvedParameter
  returnType : TsType
  declaration : Option TsNode
  classType : Option TsType
  instanceMethod : Bool
deriving DecidableEq

/-- `createResolvedParameter(name, type)`. -/
def createResolvedParameter (name : String) (paramType : TsType) : ResolvedParameter :=
  ⟨name, paramType⟩

/-- Modelled from the spec: `createResolvedFunction(name, typeParameters,
parameters, returnType, declaration, classType)`; a callable declared on an
object type is an instance method until a caller explicitly toggles the
flag off. -/
def createResolvedFunction (name : String) (typeParameters : List String)
    (parameters : List ResolvedParameter) (returnType : TsType)
    (declaration : Option TsNode) (classType : Option TsType) : ResolvedFunction :=
  ⟨name, typeParameters, parameters, returnType, declaration, classType, classType.isSome⟩

/-- A call signature resolved by the host checker (`ts.Signature`): the
callable's name, parameters and return type (`signature.getReturnType()`). -/
structure Signature where
  name : String
  parameters : List ResolvedParameter
  returnType : TsType
deriving DecidableEq

/-- Modelled from the spec: `createResolvedFunctionFromSignature(signature,
compilationContext, classType)` normalizes the host signature into a
`ResolvedFunction` declared on `classType`. -/
def createResolvedFunctionFromSignature (signature : Signature)
    (classType : TsType) : ResolvedFunction :=
  ⟨signature.name, [], signature.parameters, signature.returnType, none, some classType, true⟩

/-- Calling attributes attached to a declared runtime function
(`{ readnone: true, noUnwind: true }` for the Math members). -/
structure CallAttributes where
  readnone : Bool
  noUnwind : Bool
deriving DecidableEq

/-- A `ResolvedFunction` bound to a concrete target function handle
(`resolved-function-reference.ts`), recording the calling attributes it was
created with (none for plain `create`). -/
structure ResolvedFunctionReference where
  fn : LLVMFunction
  resolvedFunction : ResolvedFunction
  attributes : CallAttributes
deriving DecidableEq

/-- `ResolvedFunctionReference.create(fn, resolvedFunction)`: wrap an
existing declared target function; no calling attributes are attached. -/
def ResolvedFunctionReference.create (fn : LLVMFunction)
    (resolvedFunction : ResolvedFunction) : ResolvedFunctionReference :=
  ⟨fn, resolvedFunction, ⟨false, false⟩⟩

/-- Map every parameter's source type through the type mapper, propagating
the first failure. -/
def mapParameterTypes (context : CodeGenerationContext) :
    List ResolvedParameter → Except CgError (List LLVMType)
  | [] => .ok []
  | p :: rest =>
    match toLLVMType context p.paramType with
    | .error e => .error e
    | .ok ty =>
      match mapParameterTypes context rest with
      | .error e => .error e
      | .ok tys => .ok (ty :: tys)

/-- Modelled from the spec:
`ResolvedFunctionReference.createRuntimeFunction(resolvedFunction, context,
attributes)` (`resolved-function-reference.ts` is not part of the sources)
— maps the return and parameter types through the type mapper, declares the
external runtime symbol idempotently (find-or-declare keyed by the resolved
function's name in the target module) and returns the reference created
with the given calling attributes, together with the updated module. -/
def ResolvedFunctionReference.createRuntimeFunction (resolvedFunction : ResolvedFunction)
    (context : CodeGenerationContext) (attributes : CallAttributes) :
    Except CgError (ResolvedFunctionReference × LLVMModule) :=
  match toLLVMType context resolvedFunction.returnType with
  | .error e => .error e
  | .ok returnType =>
    match mapParameterTypes context resolvedFunction.parameters with
    | .error e => .error e
    | .ok parameterTypes =>
      match context.module.getFunction resolvedFunction.functionName with
      | some fn => .ok (⟨fn, resolvedFunction, attributes⟩, context.module)
      | none =>
        let fn : LLVMFunction :=
          ⟨resolvedFunction.functionName, ⟨returnType, parameterTypes, false⟩, .externalLinkage⟩
        .ok (⟨fn, resolvedFunction, attributes⟩, ⟨context.module.functions ++ [fn]⟩)

/-- The wrapper for the built-in `Math` object
(`math-object-reference.ts`); `objectType` models `this.type`. -/
structure MathObjectReference where
  objectType : TsType

/-- `MathObjectReference.createPowFunction(numberType, mathType, context)`:
find-or-declare the `llvm.pow.f64` intrinsic (double (double, double)) in
the module, build the resolved `pow` function (not an instance method) and
wrap both; the possibly-extended module is returned alongside. -/
def MathObjectReference.createPowFunction (numberType : TsType) (mathType : TsType)
    (context : CodeGenerationContext) : ResolvedFunctionReference × LLVMModule :=
  let found := context.module.getFunction "llvm.pow.f64"
  let fnAndModule : LLVMFunction × LLVMModule :=
    match found with
    | some fn => (fn, context.module)
    | none =>
      let fn : LLVMFunction :=
        ⟨"llvm.pow.f64", ⟨.f64, [.f64, .f64], false⟩, .externalLinkage⟩
      (fn, ⟨context.module.functions ++ [fn]⟩)
  let parameters :=
    [createResolvedParameter "value" numberType, createResolvedParameter "exp" numberType]
  let resolvedFunction :=
    { createResolvedFunction "pow" [] parameters numberType none (some mathType) with
        instanceMethod := false }
  (ResolvedFunctionReference.create fnAndModule.1 resolvedFunction, fnAndModule.2)

/-- `MathObjectReference.createSqrtFunction(signature, context)`:
find-or-declare the `llvm.sqrt.f64` intrinsic (double (double)), build the
resolved function from the signature (not an instance method) and wrap
both; the possibly-extended module is returned alongside. -/
def MathObjectReference.createSqrtFunction (self : MathObjectReference)
    (signature : Signature) (context : CodeGenerationContext) :
    ResolvedFunctionReference × LLVMModule :=
  let found := context.module.getFunction "llvm.sqrt.f64"
  let fnAndModule : LLVMFunction × LLVMModule :=
    match found with
    | some fn => (fn, context.module)
    | none =>
      let fn : LLVMFunction :=
        ⟨"llvm.sqrt.f64", ⟨.f64, [.f64], false⟩, .externalLinkage⟩
      (fn, ⟨context.module.functions ++ [fn]⟩)
  let resolvedFunction :=
    { createResolvedFunctionFromSignature signature self.objectType with
        instanceMethod := false }
  (ResolvedFunctionReference.create fnAndModule.1 resolvedFunction, fnAndModule.2)

/-- `MathObjectReference.createFunctionFor(symbol, signatures,
propertyAccessExpression, context)`: asserts exactly one signature, then
dispatches on the member name — `log`/`sin`/`cos` become runtime functions
with the `{ readnone, noUnwind }` attributes, `pow` and `sqrt` become the
machine intrinsics, and anything else throws `BuiltInMethodNotSupported`
for object `"Math"`.  The source switch is rendered as an if-chain on the
member name. -/
def MathObjectReference.createFunctionFor (self : MathObjectReference)
    (symbol : TsSymbol) (signatures : List Signature)
    (propertyAccessExpression : TsNode) (context : CodeGenerationContext) :
    Except CgError (ResolvedFunctionReference × LLVMModule) :=
  match signatures with
  | [signature0] =>
    if symbol.name = "log" ∨ symbol.name = "sin" ∨ symbol.name = "cos" then
      let resolvedFunction := createResolvedFunctionFromSignature signature0 self.objectType
      let resolvedFunction := { resolvedFunction with instanceMethod := false }
      ResolvedFunctionReference.createRuntimeFunction resolvedFunction context ⟨true, true⟩
    else if symbol.name = "pow" then
      .ok (MathObjectReference.createPowFunction signature0.returnType self.objectType context)
    else if symbol.name = "sqrt" then
      .ok (MathObjectReference.createSqrtFunction self signature0 context)
    else
      raiseAsError (CodeGenerationDiagnostic.builtInMethodNotSupported
        propertyAccessExpression "Math" symbol.name)
  | _ => .error (.assertionFailure "Math functions have not to be overloaded")

/-! Concrete fixtures used by witness and counterexample theorems. -/

def node0 : TsNode := ⟨0, 5, "main.ts", "", "", "", "", ""⟩

def emptyFlags : TypeFlags := ⟨false, false, false, false, false, false, false, false⟩

def intFlags : TypeFlags := { emptyFlags with intLike := true }

def numberFlags : TypeFlags := { emptyFlags with numberLike := true }

def booleanFlags : TypeFlags := { emptyFlags with booleanLike := true }

def anyFlags : TypeFlags := { emptyFlags with anyFlag := true }

def voidFlags : TypeFlags := { emptyFlags with voidFlag := true }

def undefinedFlags : TypeFlags := { emptyFlags with undefinedFlag := true }

def objectFlags0 : TypeFlags := { emptyFlags with objectFlag := true }

def unionFlags0 : TypeFlags := { emptyFlags with unionFlag := true }

def intTy : TsType := .atom ⟨intFlags, none⟩

def numberTy : TsType := .atom ⟨numberFlags, none⟩

def booleanTy : TsType := .atom ⟨booleanFlags, none⟩

def anyTy : TsType := .atom ⟨anyFlags, none⟩

def voidTy : TsType := .atom ⟨voidFlags, none⟩

def undefinedTy : TsType := .atom ⟨undefinedFlags, none⟩

def objAtom : AtomType := ⟨objectFlags0, none⟩

def objTy : TsType := .atom objAtom

def undefinedAtom : AtomType := ⟨undefinedFlags, none⟩

def maybeObjTy : TsType := .unionType unionFlags0 [undefinedAtom, objAtom] none

def emptyModule : LLVMModule := ⟨[]⟩

def ctx0 : CodeGenerationContext := ⟨emptyModule, fun _ => none, fun _ => "T"⟩

def classRef0 : ClassReference := ⟨fun _ => .structType "Obj"⟩

def ctxObj : CodeGenerationContext :=
  ⟨emptyModule, fun t => if t = objTy then some classRef0 else none, fun _ => "T"⟩

def mathRef : MathObjectReference := ⟨objTy⟩

def numSig : Signature := ⟨"sin", [⟨"value", numberTy⟩], numberTy⟩

def declaredTy : TsType := .atom ⟨emptyFlags, some ⟨"Foo", [node0]⟩⟩

def undeclaredSymTy : TsType := .atom ⟨emptyFlags, some ⟨"Foo", []⟩⟩

def noSymTy : TsType := .atom ⟨emptyFlags, none⟩

/-- The runtime-function reference produced for `Math.sin` under `ctx0`
with the `numSig` signature. -/
def sinRuntimeRef : ResolvedFunctionReference :=
  ⟨⟨"sin", ⟨.f64, [.f64], false⟩, .externalLinkage⟩,
    ⟨"sin", [], [⟨"value", numberTy⟩], numberTy, none, some objTy, false⟩, ⟨true, true⟩⟩

/-- The module after declaring the `sin` runtime symbol in `ctx0`. -/
def sinModuleAfter : LLVMModule := ⟨[⟨"sin", ⟨.f64, [.f64], false⟩, .externalLinkage⟩]⟩

/-- Discriminator: does a mapper result fail with a thrown
`CodeGenerationDiagnostic` (as opposed to a plain uncoded error)? -/
def failsWithDiagnostic (r : Except CgError LLVMType) : Bool :=
  match r with
  | .error (.diagnostic _) => true
  | _ => false

/-! Helper lemmas shared by the claim theorems. -/

/-- A `createException` call with a non-zero code and a non-empty formatted
message passes the constructor asserts and returns the diagnostic. -/
theorem createException_ok (n : TsNode) (dm : DiagnosticMessage) (args : List String)
    (hc : ¬dm.code = 0) (hm : ¬utilFormat dm.message args = "") :
    CodeGenerationDiagnostic.createException n dm args =
      .ok ⟨n, dm.code, utilFormat dm.message args⟩ := by
  unfold CodeGenerationDiagnostic.createException CodeGenerationDiagnostic.construct
  simp [hc, hm]

/-- Unfolding step of `formatChars` on a literal (non-`%`) head character. -/
theorem formatChars_cons (c : Char) (rest : List Char) (args : List String)
    (hc : c ≠ '%') : formatChars (c :: rest) args = c :: formatChars rest args := by
  rw [formatChars.eq_def]
  split
  · simp_all
  · simp_all
  · simp_all

/-- A format string starting with a literal character formats to a
non-empty message, whatever the arguments are. -/
theorem utilFormat_ne_empty (fmt : String) (args : List String)
    (h1 : fmt.data ≠ []) (h2 : fmt.data.headD ' ' ≠ '%') :
    utilFormat fmt args ≠ "" := by
  intro hcontra
  have hd : formatChars fmt.data args = [] := congrArg String.data hcontra
  cases he : fmt.data with
  | nil => exact h1 he
  | cons c cs =>
    rw [he] at hd h2
    simp only [List.headD] at h2
    rw [formatChars_cons c cs args h2] at hd
    exact List.cons_ne_nil _ _ hd

/-- `find?` over a list extended by one matching element on the right finds
that element when the original list had no match. -/
theorem find?_append_singleton {α : Type} (p : α → Bool) (l : List α) (x : α)
    (h : l.find? p = none) (hx : p x = true) : (l ++ [x]).find? p = some x := by
  induction l with
  | nil => simp [List.find?, hx]
  | cons a t ih =>
    rw [List.cons_append]
    cases hpa : p a with
    | true =>
      rw [List.find?_cons_of_pos _ hpa] at h
      exact absurd h (by simp)
    | false =>
      have hpa' : ¬p a = true := by simp [hpa]
      rw [List.find?_cons_of_neg _ hpa'] at h
      rw [List.find?_cons_of_neg _ hpa']
      exact ih h

/-- Claim C7: converting a diagnostic to the host format (`toDiagnostic`)
produces a record whose code equals the diagnostic's code, whose
messageText equals the diagnostic's message, whose start and length are the
anchor node's full start offset and full width, whose category is error and
whose file is the anchor node's source file. -/
theorem toDiagnostic_matches_host_record (d : CodeGenerationDiagnostic) :
    d.toDiagnostic.code = d.code ∧
    d.toDiagnostic.messageText = d.message ∧
    d.toDiagnostic.start = d.node.fullStart ∧
    d.toDiagnostic.length = d.node.fullWidth ∧
    d.toDiagnostic.category = DiagnosticCategory.error ∧
    d.toDiagnostic.file = d.node.sourceFile :=
  ⟨rfl, rfl, rfl, rfl, rfl, rfl⟩

/-- Claim C10: for every element-access node and object name,
`builtInDoesNotSupportElementAccess` returns a diagnostic with code 100002
whose message substitutes the object name only into the first of the
template's two `%s` placeholders; the second `%s` and the literal `$s`
remain unsubstituted in the rendered message. -/
theorem builtInDoesNotSupportElementAccess_partial_substitution
    (element : TsNode) (objectName : String) :
    CodeGenerationDiagnostic.builtInDoesNotSupportElementAccess element objectName =
      .ok ⟨element, 100002,
        "The built in object '" ++ (objectName ++
          "' does not support element access (%s[index] or $s[index]=value).")⟩ := by
  unfold CodeGenerationDiagnostic.builtInDoesNotSupportElementAccess
  rw [createException_ok _ _ _ (by decide) (utilFormat_ne_empty _ _ (by decide) (by decide))]
  rfl

/-- Claim C3: a diagnostic is constructible exactly when the source node is
present, the numeric code is non-zero and the message is non-empty — for
every combination violating one of these the constructor fails — and every
factory goes through `createException`, which defers to that constructor on
the formatted message. -/
theorem diagnostic_construction_invariant :
    (∀ (node : Option TsNode) (code : Int) (message : String),
      (∃ d, CodeGenerationDiagnostic.construct node code message = .ok d) ↔
        (node ≠ none ∧ code ≠ 0 ∧ message ≠ "")) ∧
    (∀ (n : TsNode) (dm : DiagnosticMessage) (args : List String),
      CodeGenerationDiagnostic.createException n dm args =
        CodeGenerationDiagnostic.construct (some n) dm.code (utilFormat dm.message args)) := by
  constructor
  · intro node code message
    constructor
    · rintro ⟨d, hd⟩
      cases node with
      | none => simp [CodeGenerationDiagnostic.construct] at hd
      | some n =>
        by_cases hc : code = 0
        · simp [CodeGenerationDiagnostic.construct, hc] at hd
        · by_cases hm : message = ""
          · simp [CodeGenerationDiagnostic.construct, hc, hm] at hd
          · exact ⟨Option.some_ne_none n, hc, hm⟩
    · rintro ⟨hn, hc, hm⟩
      cases node with
      | none => exact absurd rfl hn
      | some n =>
        exact ⟨⟨n, code, message⟩, by simp [CodeGenerationDiagnostic.construct, hc, hm]⟩
  · intro n dm args
    rfl

/-- Witness for claim C3: at a concrete node, code and message all three
preconditions hold and construction succeeds; with the node absent it fails. -/
theorem diagnostic_construction_invariant_witness :
    (CodeGenerationDiagnostic.construct (some node0) 7 "m").isOk = true ∧
    (CodeGenerationDiagnostic.construct none 7 "m").isOk = false := by
  constructor
  · obtain ⟨d, hd⟩ := (diagnostic_construction_invariant.1 (some node0) 7 "m").mpr
      ⟨by simp, by decide, by decide⟩
    rw [hd]
    rfl
  · by_contra hcontra
    simp only [Bool.not_eq_false] at hcontra
    have hok : ∃ d, CodeGenerationDiagnostic.construct none 7 "m" = .ok d := by
      cases he : CodeGenerationDiagnostic.construct none 7 "m" with
      | ok d => exact ⟨d, rfl⟩
      | error e => rw [he] at hcontra; exact absurd hcontra (by simp [Except.isOk, Except.toBool])
    have := (diagnostic_construction_invariant.1 none 7 "m").mp hok
    exact this.1 rfl

/-- Counterexample to claim C8 as stated: the factory
`unsupportedFunctionDeclaration` does not return the constructed diagnostic
to its caller — it throws it (modelled as an `.error` result). -/
theorem unsupportedFunctionDeclaration_throws :
    CodeGenerationDiagnostic.unsupportedFunctionDeclaration node0 =
      .error (.diagnostic ⟨node0, 1000028,
        "Unsupported function declaration. Only function and method declarations are supported."⟩) := by
  rfl

/-- Claim C8 (amended): every diagnostic factory function except
`unsupportedFunctionDeclaration` returns the constructed diagnostic as a
value to its caller; `unsupportedFunctionDeclaration` instead throws the
constructed diagnostic. -/
theorem diagnostic_factories_return_values :
    (∀ (n : TsNode) (objectName methodName : String),
      CodeGenerationDiagnostic.builtInMethodNotSupported n objectName methodName =
        .ok ⟨n, 100000, utilFormat diagnostics.BuiltInMethodNotSupported.message
          [methodName, objectName]⟩) ∧
    (∀ (n : TsNode) (objectName : String),
      CodeGenerationDiagnostic.builtInPropertyNotSupported n objectName =
        .ok ⟨n, 100001, utilFormat diagnostics.BuiltInPropertyNotSupported.message
          [n.nameText, objectName]⟩) ∧
    (∀ (n : TsNode) (objectName : String),
      CodeGenerationDiagnostic.builtInDoesNotSupportElementAccess n objectName =
        .ok ⟨n, 100002, utilFormat diagnostics.BuiltInObjectDoesNotSupportElementAccess.message
          [objectName]⟩) ∧
    (∀ (n : TsNode) (typeName : String),
      CodeGenerationDiagnostic.unsupportedLiteralType n typeName =
        .ok ⟨n, 100004, utilFormat diagnostics.UnsupportedLiteralType.message [typeName]⟩) ∧
    (∀ (n : TsNode) (typeName : String),
      CodeGenerationDiagnostic.unsupportedType n typeName =
        .ok ⟨n, 100005, utilFormat diagnostics.UnsupportedType.message [typeName]⟩) ∧
    (∀ (n : TsNode),
      CodeGenerationDiagnostic.unsupportedIdentifier n =
        .ok ⟨n, 100006, utilFormat diagnostics.UnsupportedIdentifier.message [n.text]⟩) ∧
    (∀ (n : TsNode) (leftType rightType : String),
      CodeGenerationDiagnostic.unsupportedBinaryOperation n leftType rightType =
        .ok ⟨n, 100007, utilFormat diagnostics.UnsupportedBinaryOperation.message
          [n.operatorTokenKindName, leftType, rightType]⟩) ∧
    (∀ (n : TsNode) (typeName : String),
      CodeGenerationDiagnostic.unsupportedUnaryOperation n typeName =
        .ok ⟨n, 100008, utilFormat diagnostics.UnsupportedUnaryOperation.message
          [n.operatorKindName, typeName]⟩) ∧
    (∀ (n : TsNode),
      CodeGenerationDiagnostic.anonymousEntryFunctionsNotSupported n =
        .ok ⟨n, 100009, utilFormat diagnostics.AnonymousEntryFunctionsUnsupported.message []⟩) ∧
    (∀ (n : TsNode),
      CodeGenerationDiagnostic.optionalParametersInEntryFunctionNotSupported n =
        .ok ⟨n, 100011,
          utilFormat diagnostics.OptionalParametersNotSupportedForEntryFunction.message []⟩) ∧
    (∀ (n : TsNode),
      CodeGenerationDiagnostic.genericEntryFunctionNotSupported n =
        .ok ⟨n, 100012, utilFormat diagnostics.GenericEntryFunctionNotSuppoorted.message []⟩) ∧
    (∀ (n : TsNode),
      CodeGenerationDiagnostic.unsupportedClassReferencedBy n =
        .ok ⟨n, 100003, utilFormat diagnostics.UnsupportedBuiltInClass.message []⟩) ∧
    (∀ (n : TsNode) (symbolName : String),
      CodeGenerationDiagnostic.referenceToNonSpeedyJSEntryFunctionFromJS n symbolName =
        .ok ⟨n, 100010, utilFormat diagnostics.ReferenceToNonEntrySpeedyJSFunctionFromJS.message
          [symbolName]⟩) ∧
    (∀ (n : TsNode),
      CodeGenerationDiagnostic.overloadedEntryFunctionNotSupported n =
        .ok ⟨n, 100013, utilFormat diagnostics.OverloadedEntryFunctionNotSupported.message []⟩) ∧
    (∀ (n : TsNode),
      CodeGenerationDiagnostic.unsupportedSyntaxKind n =
        .ok ⟨n, 100014, utilFormat diagnostics.UnsupportedSyntaxKind.message [n.kindName]⟩) ∧
    (∀ (n : TsNode),
      CodeGenerationDiagnostic.unsupportedProperty n =
        .ok ⟨n, 1000015, utilFormat diagnostics.UnsupportedProperty.message []⟩) ∧
    (∀ (n : TsNode),
      CodeGenerationDiagnostic.unsupportedIndexer n =
        .ok ⟨n, 1000016, utilFormat diagnostics.UnsupportedIndexer.message []⟩) ∧
    (∀ (n : TsNode) (sourceType targetType : String),
      CodeGenerationDiagnostic.unsupportedCast n sourceType targetType =
        .ok ⟨n, 1000017, utilFormat diagnostics.UnsupportedCast.message
          [sourceType, targetType]⟩) ∧
    (∀ (n : TsNode) (arrayElementType typeRequiringCast : String),
      CodeGenerationDiagnostic.implicitArrayElementCast n arrayElementType typeRequiringCast =
        .ok ⟨n, 1000018, utilFormat diagnostics.UnsupportedImplicitArrayElementCast.message
          [typeRequiringCast, arrayElementType]⟩) ∧
    (∀ (n : TsNode) (leftOperandType rightOperandType : String),
      CodeGenerationDiagnostic.unsupportedImplicitCastOfBinaryExpressionOperands n
          leftOperandType rightOperandType =
        .ok ⟨n, 1000019,
          utilFormat diagnostics.UnsupportedImplicitCastOfBinaryExpressionOperands.message
            [leftOperandType, rightOperandType]⟩) ∧
    (∀ (n : TsNode) (parameterType argumentType : String),
      CodeGenerationDiagnostic.unsupportedImplicitCastOfArgument n parameterType argumentType =
        .ok ⟨n, 1000020, utilFormat diagnostics.UnsupportedImplicitCastOfArgument.message
          [argumentType, parameterType, parameterType]⟩) ∧
    (∀ (n : TsNode) (typeOfConditional typeOfConditionResult : String),
      CodeGenerationDiagnostic.unsupportedImplicitCastOfConditionalResult n
          typeOfConditional typeOfConditionResult =
        .ok ⟨n, 1000021,
          utilFormat diagnostics.UnsupportedImplicitCastOfConditionalResult.message
            [typeOfConditionResult, typeOfConditional, typeOfConditional]⟩) ∧
    (∀ (n : TsNode) (argumentExpressionType : Option String),
      CodeGenerationDiagnostic.unsupportedElementAccessExpression n argumentExpressionType =
        .ok ⟨n, 1000022, utilFormat diagnostics.UnsupportedElementAccessExpression.message
          [argumentExpressionType.getD "undefined"]⟩) ∧
    (∀ (n : TsNode) (declaredReturnType returnExpressionType : String),
      CodeGenerationDiagnostic.unsupportedImplicitCastOfReturnValue n
          declaredReturnType returnExpressionType =
        .ok ⟨n, 1000023, utilFormat diagnostics.UnsupportedImplicitCastOfReturnValue.message
          [returnExpressionType, declaredReturnType, declaredReturnType]⟩) ∧
    (∀ (n : TsNode) (castTargetType actualValueType : String),
      CodeGenerationDiagnostic.unsupportedImplicitCast n castTargetType actualValueType =
        .ok ⟨n, 1000024, utilFormat diagnostics.UnsupportedImplicitCast.message
          [actualValueType, castTargetType, castTargetType]⟩) ∧
    (∀ (n : TsNode),
      CodeGenerationDiagnostic.unsupportedGenericFunction n =
        .ok ⟨n, 1000025, utilFormat diagnostics.UnsupportedGenericFunction.message []⟩) ∧
    (∀ (n : TsNode),
      CodeGenerationDiagnostic.unsupportedStaticProperties n =
        .ok ⟨n, 1000026, utilFormat diagnostics.UnsupportedStaticProperty.message []⟩) ∧
    (∀ (n : TsNode),
      CodeGenerationDiagnostic.unsupportedNestedFunctionDeclaration n =
        .ok ⟨n, 1000027, utilFormat diagnostics.UnsupportedNestedFunctionDeclaration.message []⟩) ∧
    (∀ (n : TsNode),
      CodeGenerationDiagnostic.variableDeclarationList n =
        .ok ⟨n, 1000029, utilFormat diagnostics.UnsupportedVarDeclaration.message []⟩) ∧
    (∀ (n : TsNode),
      CodeGenerationDiagnostic.unsupportedOverloadedFunctionDeclaration n =
        .ok ⟨n, 1000030,
          utilFormat diagnostics.UnsupportedOverloadedFunctionDeclaration.message []⟩) ∧
    (∀ (n : TsNode),
      CodeGenerationDiagnostic.unsupportedGenericClass n =
        .ok ⟨n, 1000031, utilFormat diagnostics.UnsupportedGenericClass.message []⟩) ∧
    (∀ (n : TsNode),
      CodeGenerationDiagnostic.unsupportedClassInheritance n =
        .ok ⟨n, 1000032, utilFormat diagnostics.UnsupportedClassInheritance.message []⟩) ∧
    (∀ (n : TsNode),
      CodeGenerationDiagnostic.unsupportedFunctionDeclaration n =
        .error (.diagnostic ⟨n, 1000028,
          utilFormat diagnostics.UnsupportedFunctionDeclaration.message []⟩)) :=
  ⟨fun n a b => createException_ok n diagnostics.BuiltInMethodNotSupported [b, a]
      (by decide) (utilFormat_ne_empty _ _ (by decide) (by decide)),
    fun n a => createException_ok n diagnostics.BuiltInPropertyNotSupported [n.nameText, a]
      (by decide) (utilFormat_ne_empty _ _ (by decide) (by decide)),
    fun n a => createException_ok n diagnostics.BuiltInObjectDoesNotSupportElementAccess [a]
      (by decide) (utilFormat_ne_empty _ _ (by decide) (by decide)),
    fun n a => createException_ok n diagnostics.UnsupportedLiteralType [a]
      (by decide) (utilFormat_ne_empty _ _ (by decide) (by decide)),
    fun n a => createException_ok n diagnostics.UnsupportedType [a]
      (by decide) (utilFormat_ne_empty _ _ (by decide) (by decide)),
    fun n => createException_ok n diagnostics.UnsupportedIdentifier [n.text]
      (by decide) (utilFormat_ne_empty _ _ (by decide) (by decide)),
    fun n a b => createException_ok n diagnostics.UnsupportedBinaryOperation
      [n.operatorTokenKindName, a, b]
      (by decide) (utilFormat_ne_empty _ _ (by decide) (by decide)),
    fun n a => createException_ok n diagnostics.UnsupportedUnaryOperation [n.operatorKindName, a]
      (by decide) (utilFormat_ne_empty _ _ (by decide) (by decide)),
    fun n => createException_ok n diagnostics.AnonymousEntryFunctionsUnsupported []
      (by decide) (utilFormat_ne_empty _ _ (by decide) (by decide)),
    fun n => createException_ok n diagnostics.OptionalParametersNotSupportedForEntryFunction []
      (by decide) (utilFormat_ne_empty _ _ (by decide) (by decide)),
    fun n => createException_ok n diagnostics.GenericEntryFunctionNotSuppoorted []
      (by decide) (utilFormat_ne_empty _ _ (by decide) (by decide)),
    fun n => createException_ok n diagnostics.UnsupportedBuiltInClass []
      (by decide) (utilFormat_ne_empty _ _ (by decide) (by decide)),
    fun n a => createException_ok n diagnostics.ReferenceToNonEntrySpeedyJSFunctionFromJS [a]
      (by decide) (utilFormat_ne_empty _ _ (by decide) (by decide)),
    fun n => createException_ok n diagnostics.OverloadedEntryFunctionNotSupported []
      (by decide) (utilFormat_ne_empty _ _ (by decide) (by decide)),
    fun n => createException_ok n diagnostics.UnsupportedSyntaxKind [n.kindName]
      (by decide) (utilFormat_ne_empty _ _ (by decide) (by decide)),
    fun n => createException_ok n diagnostics.UnsupportedProperty []
      (by decide) (utilFormat_ne_empty _ _ (by decide) (by decide)),
    fun n => createException_ok n diagnostics.UnsupportedIndexer []
      (by decide) (utilFormat_ne_empty _ _ (by decide) (by decide)),
    fun n a b => createException_ok n diagnostics.UnsupportedCast [a, b]
      (by decide) (utilFormat_ne_empty _ _ (by decide) (by decide)),
    fun n a b => createException_ok n diagnostics.UnsupportedImplicitArrayElementCast [b, a]
      (by decide) (utilFormat_ne_empty _ _ (by decide) (by decide)),
    fun n a b => createException_ok n
      diagnostics.UnsupportedImplicitCastOfBinaryExpressionOperands [a, b]
      (by decide) (utilFormat_ne_empty _ _ (by decide) (by decide)),
    fun n a b => createException_ok n diagnostics.UnsupportedImplicitCastOfArgument [b, a, a]
      (by decide) (utilFormat_ne_empty _ _ (by decide) (by decide)),
    fun n a b => createException_ok n
      diagnostics.UnsupportedImplicitCastOfConditionalResult [b, a, a]
      (by decide) (utilFormat_ne_empty _ _ (by decide) (by decide)),
    fun n a => createException_ok n diagnostics.UnsupportedElementAccessExpression
      [a.getD "undefined"]
      (by decide) (utilFormat_ne_empty _ _ (by decide) (by decide)),
    fun n a b => createException_ok n diagnostics.UnsupportedImplicitCastOfReturnValue [b, a, a]
      (by decide) (utilFormat_ne_empty _ _ (by decide) (by decide)),
    fun n a b => createException_ok n diagnostics.UnsupportedImplicitCast [b, a, a]
      (by decide) (utilFormat_ne_empty _ _ (by decide) (by decide)),
    fun n => createException_ok n diagnostics.UnsupportedGenericFunction []
      (by decide) (utilFormat_ne_empty _ _ (by decide) (by decide)),
    fun n => createException_ok n diagnostics.UnsupportedStaticProperty []
      (by decide) (utilFormat_ne_empty _ _ (by decide) (by decide)),
    fun n => createException_ok n diagnostics.UnsupportedNestedFunctionDeclaration []
      (by decide) (utilFormat_ne_empty _ _ (by decide) (by decide)),
    fun n => createException_ok n diagnostics.UnsupportedVarDeclaration []
      (by decide) (utilFormat_ne_empty _ _ (by decide) (by decide)),
    fun n => createException_ok n diagnostics.UnsupportedOverloadedFunctionDeclaration []
      (by decide) (utilFormat_ne_empty _ _ (by decide) (by decide)),
    fun n => createException_ok n diagnostics.UnsupportedGenericClass []
      (by decide) (utilFormat_ne_empty _ _ (by decide) (by decide)),
    fun n => createException_ok n diagnostics.UnsupportedClassInheritance []
      (by decide) (utilFormat_ne_empty _ _ (by decide) (by decide)),
    fun n => by
      unfold CodeGenerationDiagnostic.unsupportedFunctionDeclaration
      rw [createException_ok n diagnostics.UnsupportedFunctionDeclaration []
        (by decide) (utilFormat_ne_empty _ _ (by decide) (by decide))]
      rfl⟩

/-- Claim C5: the find-or-declare paths for the `pow` and `sqrt` machine
intrinsics are idempotent within one module: a second call starting from
the module produced by the first call binds its reference to the same
underlying function declaration and leaves the module unchanged (no
duplicate or conflicting `llvm.pow.f64` / `llvm.sqrt.f64` declaration is
created). -/
theorem intrinsic_find_or_declare_idempotent :
    ∀ (context : CodeGenerationContext) (numberType mathType : TsType)
      (self : MathObjectReference) (signature : Signature),
      ((MathObjectReference.createPowFunction numberType mathType
          { context with
            module := (MathObjectReference.createPowFunction numberType mathType context).2 }).1.fn =
        (MathObjectReference.createPowFunction numberType mathType context).1.fn ∧
      (MathObjectReference.createPowFunction numberType mathType
          { context with
            module := (MathObjectReference.createPowFunction numberType mathType context).2 }).2 =
        (MathObjectReference.createPowFunction numberType mathType context).2) ∧
      ((MathObjectReference.createSqrtFunction self signature
          { context with
            module := (MathObjectReference.createSqrtFunction self signature context).2 }).1.fn =
        (MathObjectReference.createSqrtFunction self signature context).1.fn ∧
      (MathObjectReference.createSqrtFunction self signature
          { context with
            module := (MathObjectReference.createSqrtFunction self signature context).2 }).2 =
        (MathObjectReference.createSqrtFunction self signature context).2) := by
  intro context numberType mathType self signature
  constructor
  · cases h : context.module.getFunction "llvm.pow.f64" with
    | some f =>
      constructor <;>
        simp [MathObjectReference.createPowFunction, h, ResolvedFunctionReference.create]
    | none =>
      have h2 : (LLVMModule.mk (context.module.functions ++
          [⟨"llvm.pow.f64", ⟨.f64, [.f64, .f64], false⟩, .externalLinkage⟩])).getFunction
          "llvm.pow.f64" =
          some ⟨"llvm.pow.f64", ⟨.f64, [.f64, .f64], false⟩, .externalLinkage⟩ := by
        unfold LLVMModule.getFunction at h ⊢
        exact find?_append_singleton _ _ _ h (by decide)
      constructor <;>
        simp [MathObjectReference.createPowFunction, h, h2, ResolvedFunctionReference.create]
  · cases h : context.module.getFunction "llvm.sqrt.f64" with
    | some f =>
      constructor <;>
        simp [MathObjectReference.createSqrtFunction, h, ResolvedFunctionReference.create]
    | none =>
      have h2 : (LLVMModule.mk (context.module.functions ++
          [⟨"llvm.sqrt.f64", ⟨.f64, [.f64], false⟩, .externalLinkage⟩])).getFunction
          "llvm.sqrt.f64" =
          some ⟨"llvm.sqrt.f64", ⟨.f64, [.f64], false⟩, .externalLinkage⟩ := by
        unfold LLVMModule.getFunction at h ⊢
        exact find?_append_singleton _ _ _ h (by decide)
      constructor <;>
        simp [MathObjectReference.createSqrtFunction, h, h2, ResolvedFunctionReference.create]

/-- Claim C1: for every source type in the supported set the type mapper
returns the documented target representation, testing in order with first
match winning — int-like to i32, other number-like to double, boolean-like
to i1, void to machine void, undefined to an opaque i8 pointer, object
types with a resolvable class to a pointer to the class's generated struct
layout, and a union of exactly an object constituent and undefined to the
target type of its non-nullable member. -/
theorem toLLVMType_maps_supported_types :
    (∀ (context : CodeGenerationContext) (t : TsType),
      t.flags.intLike = true → toLLVMType context t = .ok .i32) ∧
    (∀ (context : CodeGenerationContext) (t : TsType),
      t.flags.intLike = false → t.flags.numberLike = true →
        toLLVMType context t = .ok .f64) ∧
    (∀ (context : CodeGenerationContext) (t : TsType),
      t.flags.intLike = false → t.flags.numberLike = false →
        t.flags.booleanLike = true → toLLVMType context t = .ok .i1) ∧
    (∀ (context : CodeGenerationContext) (t : TsType),
      t.flags.intLike = false → t.flags.numberLike = false →
        t.flags.booleanLike = false → t.flags.anyFlag = false →
        t.flags.voidFlag = true → toLLVMType context t = .ok .voidType) ∧
    (∀ (context : CodeGenerationContext) (t : TsType),
      t.flags.intLike = false → t.flags.numberLike = false →
        t.flags.booleanLike = false → t.flags.anyFlag = false →
        t.flags.voidFlag = false → t.flags.undefinedFlag = true →
        toLLVMType context t = .ok (.ptr .i8)) ∧
    (∀ (context : CodeGenerationContext) (t : TsType) (classReference : ClassReference),
      t.flags.intLike = false → t.flags.numberLike = false →
        t.flags.booleanLike = false → t.flags.anyFlag = false →
        t.flags.voidFlag = false → t.flags.undefinedFlag = false →
        t.flags.objectFlag = true → context.resolveClass t = some classReference →
        toLLVMType context t = .ok (.ptr (classReference.getLLVMType t))) ∧
    (∀ (context : CodeGenerationContext) (fl : TypeFlags) (members : List AtomType)
        (symbol : Option TsSymbol) (b : AtomType),
      fl.intLike = false → fl.numberLike = false → fl.booleanLike = false →
        fl.anyFlag = false → fl.voidFlag = false → fl.undefinedFlag = false →
        fl.objectFlag = false →
        isMaybeObjectType (.unionType fl members symbol) = true →
        members.filter (fun m => !m.flags.undefinedFlag) = [b] →
        toLLVMType context (.unionType fl members symbol) =
          toLLVMType context (.atom b)) := by
  refine ⟨?_, ?_, ?_, ?_, ?_, ?_, ?_⟩
  · intro context t h
    simp [toLLVMType, h]
  · intro context t h1 h2
    simp [toLLVMType, h1, h2]
  · intro context t h1 h2 h3
    simp [toLLVMType, h1, h2, h3]
  · intro context t h1 h2 h3 h4 h5
    simp [toLLVMType, h1, h2, h3, h4, h5]
  · intro context t h1 h2 h3 h4 h5 h6
    simp [toLLVMType, h1, h2, h3, h4, h5, h6]
  · intro context t classReference h1 h2 h3 h4 h5 h6 h7 h8
    simp [toLLVMType, h1, h2, h3, h4, h5, h6, h7, h8]
  · intro context fl members symbol b h1 h2 h3 h4 h5 h6 h7 h8 h9
    rw [toLLVMType]
    simp [TsType.flags, h1, h2, h3, h4, h5, h6, h7, h8, TsType.getNonNullableType, h9]

/-- Witness for claim C1: each supported-set rule evaluated at a concrete
type and context. -/
theorem toLLVMType_maps_supported_types_witness :
    toLLVMType ctx0 intTy = .ok .i32 ∧
    toLLVMType ctx0 numberTy = .ok .f64 ∧
    toLLVMType ctx0 booleanTy = .ok .i1 ∧
    toLLVMType ctx0 voidTy = .ok .voidType ∧
    toLLVMType ctx0 undefinedTy = .ok (.ptr .i8) ∧
    toLLVMType ctxObj objTy = .ok (.ptr (classRef0.getLLVMType objTy)) ∧
    toLLVMType ctx0 maybeObjTy = toLLVMType ctx0 (.atom objAtom) :=
  ⟨toLLVMType_maps_supported_types.1 ctx0 intTy (by decide),
    toLLVMType_maps_supported_types.2.1 ctx0 numberTy (by decide) (by decide),
    toLLVMType_maps_supported_types.2.2.1 ctx0 booleanTy (by decide) (by decide) (by decide),
    toLLVMType_maps_supported_types.2.2.2.1 ctx0 voidTy (by decide) (by decide) (by decide)
      (by decide) (by decide),
    toLLVMType_maps_supported_types.2.2.2.2.1 ctx0 undefinedTy (by decide) (by decide)
      (by decide) (by decide) (by decide) (by decide),
    toLLVMType_maps_supported_types.2.2.2.2.2.1 ctxObj objTy classRef0 (by decide) (by decide)
      (by decide) (by decide) (by decide) (by decide) (by decide) (by simp [ctxObj]),
    toLLVMType_maps_supported_types.2.2.2.2.2.2 ctx0 unionFlags0 [undefinedAtom, objAtom] none
      objAtom (by decide) (by decide) (by decide) (by decide) (by decide) (by decide)
      (by decide) (by decide) (by decide)⟩

/-- Counterexample to claim C4 as stated: at a concrete `any` type the
mapper does fail, but with the plain uncoded error of the source's
`throw new Error(...)`, not with any catalogued diagnostic. -/
theorem anyType_failure_is_plain_error :
    toLLVMType ctx0 anyTy =
      .error (.genericError "Any type not supported, annotate the type") ∧
    failsWithDiagnostic (toLLVMType ctx0 anyTy) = false := by
  have h : toLLVMType ctx0 anyTy =
      .error (.genericError "Any type not supported, annotate the type") := by
    simp [toLLVMType, anyTy, anyFlags, emptyFlags, TsType.flags]
  exact ⟨h, by rw [h]; rfl⟩

/-- Claim C4 (amended): for every type carrying the `any` flag and not
matching an earlier int/number/boolean rule (as every host `any` type
does), the type mapper always fails and never falls through to a later
rule; the failure is the plain error "Any type not supported, annotate the
type" — a generic uncoded error, not a catalogued diagnostic. -/
theorem anyType_always_fails_generically :
    ∀ (context : CodeGenerationContext) (t : TsType),
      t.flags.intLike = false → t.flags.numberLike = false →
      t.flags.booleanLike = false → t.flags.anyFlag = true →
      toLLVMType context t =
        .error (.genericError "Any type not supported, annotate the type") := by
  intro context t h1 h2 h3 h4
  simp [toLLVMType, h1, h2, h3, h4]

/-- Witness for claim C4 (amended): the concrete `any` type under a context
with a resolvable class still fails with the plain error. -/
theorem anyType_always_fails_generically_witness :
    toLLVMType ctxObj anyTy =
      .error (.genericError "Any type not supported, annotate the type") :=
  anyType_always_fails_generically ctxObj anyTy (by decide) (by decide) (by decide) (by decide)

/-- Claim C6: for every type not matched by any earlier mapping rule — when
the type has a symbol with at least one declaration the mapper fails with
the `UnsupportedType` diagnostic (code 100005) anchored at the first
declaration site and carrying the checker's rendered type name; when no
such declaration exists it fails with a generic unsupported-type error. -/
theorem unmatched_type_failure_modes :
    (∀ (context : CodeGenerationContext) (t : TsType) (sym : TsSymbol)
        (firstDeclaration : TsNode) (rest : List TsNode),
      t.flags.intLike = false → t.flags.numberLike = false →
      t.flags.booleanLike = false → t.flags.anyFlag = false →
      t.flags.voidFlag = false → t.flags.undefinedFlag = false →
      (t.flags.objectFlag = true → context.resolveClass t = none) →
      isMaybeObjectType t = false →
      t.getSymbol = some sym → sym.declarations = firstDeclaration :: rest →
      toLLVMType context t = .error (.diagnostic ⟨firstDeclaration, 100005,
        "The type '" ++ (context.typeToString t ++ "' is not supported.")⟩)) ∧
    (∀ (context : CodeGenerationContext) (t : TsType),
      t.flags.intLike = false → t.flags.numberLike = false →
      t.flags.booleanLike = false → t.flags.anyFlag = false →
      t.flags.voidFlag = false → t.flags.undefinedFlag = false →
      (t.flags.objectFlag = true → context.resolveClass t = none) →
      isMaybeObjectType t = false →
      (t.getSymbol.all fun sym => sym.declarations.isEmpty) = true →
      toLLVMType context t =
        .error (.genericError ("Unsupported type " ++ context.typeToString t))) := by
  constructor
  · intro context t sym firstDeclaration rest h1 h2 h3 h4 h5 h6 h7 h8 h9 h10
    have hce := createException_ok firstDeclaration diagnostics.UnsupportedType
      [context.typeToString t] (by decide) (utilFormat_ne_empty _ _ (by decide) (by decide))
    have hmsg : utilFormat diagnostics.UnsupportedType.message [context.typeToString t] =
        "The type '" ++ (context.typeToString t ++ "' is not supported.") := rfl
    rw [hmsg] at hce
    simp only [diagnostics.UnsupportedType] at hce
    by_cases hobj : t.flags.objectFlag = true
    · have hres := h7 hobj
      rw [toLLVMType]
      simp [h1, h2, h3, h4, h5, h6, hobj, hres, h8, h9, h10, raiseAsError,
        CodeGenerationDiagnostic.unsupportedType, hce, diagnostics.UnsupportedType]
    · simp only [Bool.not_eq_true] at hobj
      rw [toLLVMType]
      simp [h1, h2, h3, h4, h5, h6, hobj, h8, h9, h10, raiseAsError,
        CodeGenerationDiagnostic.unsupportedType, hce, diagnostics.UnsupportedType]
  · intro context t h1 h2 h3 h4 h5 h6 h7 h8 h9
    have hdecl : ∀ sym, t.getSymbol = some sym → sym.declarations = [] := by
      intro sym hsym
      rw [hsym] at h9
      simp [Option.all] at h9
      exact h9
    by_cases hobj : t.flags.objectFlag = true
    · have hres := h7 hobj
      cases hsym : t.getSymbol with
      | none =>
        rw [toLLVMType]
        simp [h1, h2, h3, h4, h5, h6, hobj, hres, h8, hsym]
      | some sym =>
        have hd := hdecl sym hsym
        rw [toLLVMType]
        simp [h1, h2, h3, h4, h5, h6, hobj, hres, h8, hsym, hd]
    · simp only [Bool.not_eq_true] at hobj
      cases hsym : t.getSymbol with
      | none =>
        rw [toLLVMType]
        simp [h1, h2, h3, h4, h5, h6, hobj, h8, hsym]
      | some sym =>
        have hd := hdecl sym hsym
        rw [toLLVMType]
        simp [h1, h2, h3, h4, h5, h6, hobj, h8, hsym, hd]

/-- Witness for claim C6: a declared unmatched type maps to the anchored
`UnsupportedType` diagnostic; an unmatched type without symbol or without
declarations maps to the generic error. -/
theorem unmatched_type_failure_modes_witness :
    toLLVMType ctx0 declaredTy = .error (.diagnostic ⟨node0, 100005,
      "The type '" ++ ("T" ++ "' is not supported.")⟩) ∧
    toLLVMType ctx0 noSymTy = .error (.genericError ("Unsupported type " ++ "T")) ∧
    toLLVMType ctx0 undeclaredSymTy = .error (.genericError ("Unsupported type " ++ "T")) :=
  ⟨unmatched_type_failure_modes.1 ctx0 declaredTy ⟨"Foo", [node0]⟩ node0 []
      (by decide) (by decide) (by decide) (by decide) (by decide) (by decide)
      (fun hobj => by simp [declaredTy, emptyFlags, TsType.flags] at hobj)
      (by decide) (by decide) (by decide),
    unmatched_type_failure_modes.2 ctx0 noSymTy
      (by decide) (by decide) (by decide) (by decide) (by decide) (by decide)
      (fun hobj => by simp [noSymTy, emptyFlags, TsType.flags] at hobj)
      (by decide) (by decide),
    unmatched_type_failure_modes.2 ctx0 undeclaredSymTy
      (by decide) (by decide) (by decide) (by decide) (by decide) (by decide)
      (fun hobj => by simp [undeclaredSymTy, emptyFlags, TsType.flags] at hobj)
      (by decide) (by decide)⟩

/-- Throwing `UnsupportedType` is a thrown diagnostic, never a failed
assert. -/
theorem unsupportedType_raise_not_assertion (n : TsNode) (name : String) (msg : String) :
    raiseAsError (CodeGenerationDiagnostic.unsupportedType n name) ≠
      (.error (.assertionFailure msg) : Except CgError LLVMType) := by
  have hce := createException_ok n diagnostics.UnsupportedType [name]
    (by decide) (utilFormat_ne_empty _ _ (by decide) (by decide))
  intro hcontra
  rw [CodeGenerationDiagnostic.unsupportedType] at hcontra
  rw [hce] at hcontra
  simp [raiseAsError] at hcontra

/-- The type mapper never fails with an assertion failure on an atom. -/
theorem toLLVMType_atom_no_assertion (context : CodeGenerationContext) (a : AtomType)
    (msg : String) : toLLVMType context (.atom a) ≠ .error (.assertionFailure msg) := by
  intro hcontra
  rw [toLLVMType] at hcontra
  split_ifs at hcontra <;> try simp_all [isMaybeObjectType, TsType.typesOf]
  all_goals repeat' split at hcontra
  all_goals
    first
      | simp_all
      | exact unsupportedType_raise_not_assertion _ _ _ hcontra

/-- The non-nullable type of any modelled type is an atom. -/
theorem getNonNullableType_isAtom (t : TsType) : ∃ a, t.getNonNullableType = .atom a := by
  cases t with
  | atom a => exact ⟨a, rfl⟩
  | unionType fl members symbol =>
    rw [TsType.getNonNullableType]
    split
    · exact ⟨_, rfl⟩
    · exact ⟨_, rfl⟩

/-- The type mapper never fails with an assertion failure: all of its
failures are thrown diagnostics or plain errors. -/
theorem toLLVMType_no_assertion (context : CodeGenerationContext) (t : TsType)
    (msg : String) : toLLVMType context t ≠ .error (.assertionFailure msg) := by
  cases t with
  | atom a => exact toLLVMType_atom_no_assertion context a msg
  | unionType fl members symbol =>
    intro hcontra
    rw [toLLVMType] at hcontra
    split_ifs at hcontra <;> try simp_all
    all_goals repeat' split at hcontra
    all_goals
      first
        | exact unsupportedType_raise_not_assertion _ _ _ hcontra
        | (obtain ⟨b, hb⟩ := getNonNullableType_isAtom (TsType.unionType fl members symbol)
           rw [hb] at hcontra
           exact toLLVMType_atom_no_assertion context b msg hcontra)
        | simp_all

/-- Mapping a parameter list never fails with an assertion failure. -/
theorem mapParameterTypes_no_assertion (context : CodeGenerationContext)
    (params : List ResolvedParameter) (msg : String) :
    mapParameterTypes context params ≠ .error (.assertionFailure msg) := by
  induction params with
  | nil => simp [mapParameterTypes]
  | cons p rest ih =>
    intro hcontra
    rw [mapParameterTypes] at hcontra
    cases he : toLLVMType context p.paramType with
    | error e =>
      rw [he] at hcontra
      simp at hcontra
      exact toLLVMType_no_assertion context p.paramType msg (by rw [he, hcontra])
    | ok ty =>
      rw [he] at hcontra
      cases hr : mapParameterTypes context rest with
      | error e =>
        rw [hr] at hcontra
        simp at hcontra
        exact ih (by rw [hr, hcontra])
      | ok tys =>
        rw [hr] at hcontra
        simp at hcontra

/-- Declaring a runtime function never fails with an assertion failure. -/
theorem createRuntimeFunction_no_assertion (resolvedFunction : ResolvedFunction)
    (context : CodeGenerationContext) (attributes : CallAttributes) (msg : String) :
    ResolvedFunctionReference.createRuntimeFunction resolvedFunction context attributes ≠
      .error (.assertionFailure msg) := by
  intro hcontra
  unfold ResolvedFunctionReference.createRuntimeFunction at hcontra
  cases he : toLLVMType context resolvedFunction.returnType with
  | error e =>
    rw [he] at hcontra
    simp at hcontra
    exact toLLVMType_no_assertion context resolvedFunction.returnType msg (by rw [he, hcontra])
  | ok returnType =>
    rw [he] at hcontra
    cases hp : mapParameterTypes context resolvedFunction.parameters with
    | error e =>
      rw [hp] at hcontra
      simp at hcontra
      exact mapParameterTypes_no_assertion context resolvedFunction.parameters msg
        (by rw [hp, hcontra])
    | ok parameterTypes =>
      rw [hp] at hcontra
      cases hf : context.module.getFunction resolvedFunction.functionName with
      | some fn => rw [hf] at hcontra; simp at hcontra
      | none => rw [hf] at hcontra; simp at hcontra

/-- Claim C9: built-in callable dispatch requires exactly one applicable
signature — with a signature list of length other than one,
`createFunctionFor` fails with the internal assertion "Math functions have
not to be overloaded" rather than a user-facing diagnostic; under the
precondition that exactly one signature is supplied, no assertion failure
can result (the assertion branch is unreachable). -/
theorem math_dispatch_requires_single_signature :
    ∀ (self : MathObjectReference) (symbol : TsSymbol) (signatures : List Signature)
      (propertyAccessExpression : TsNode) (context : CodeGenerationContext),
      (signatures.length ≠ 1 →
        MathObjectReference.createFunctionFor self symbol signatures
          propertyAccessExpression context =
          .error (.assertionFailure "Math functions have not to be overloaded")) ∧
      (signatures.length = 1 → ∀ msg,
        MathObjectReference.createFunctionFor self symbol signatures
          propertyAccessExpression context ≠ .error (.assertionFailure msg)) := by
  intro self symbol signatures propertyAccessExpression context
  constructor
  · intro hne
    cases signatures with
    | nil => rfl
    | cons s rest =>
      cases rest with
      | nil => simp at hne
      | cons s2 rest2 => rfl
  · intro hlen msg hcontra
    cases signatures with
    | nil => simp at hlen
    | cons s rest =>
      cases rest with
      | cons s2 rest2 => simp at hlen
      | nil =>
        simp only [MathObjectReference.createFunctionFor] at hcontra
        by_cases h1 : symbol.name = "log" ∨ symbol.name = "sin" ∨ symbol.name = "cos"
        · rw [if_pos h1] at hcontra
          exact createRuntimeFunction_no_assertion _ _ _ _ hcontra
        · rw [if_neg h1] at hcontra
          by_cases h2 : symbol.name = "pow"
          · rw [if_pos h2] at hcontra
            simp at hcontra
          · rw [if_neg h2] at hcontra
            by_cases h3 : symbol.name = "sqrt"
            · rw [if_pos h3] at hcontra
              simp at hcontra
            · rw [if_neg h3] at hcontra
              have hce := createException_ok propertyAccessExpression
                diagnostics.BuiltInMethodNotSupported [symbol.name, "Math"]
                (by decide) (utilFormat_ne_empty _ _ (by decide) (by decide))
              rw [CodeGenerationDiagnostic.builtInMethodNotSupported] at hcontra
              rw [hce] at hcontra
              simp [raiseAsError] at hcontra

/-- Witness for claim C9: an empty signature list triggers the assertion
failure; a single-signature call (here an unknown member) does not. -/
theorem math_dispatch_requires_single_signature_witness :
    MathObjectReference.createFunctionFor mathRef ⟨"sin", []⟩ [] node0 ctx0 =
      .error (.assertionFailure "Math functions have not to be overloaded") ∧
    MathObjectReference.createFunctionFor mathRef ⟨"random", []⟩ [numSig] node0 ctx0 ≠
      .error (.assertionFailure "Math functions have not to be overloaded") :=
  ⟨(math_dispatch_requires_single_signature mathRef ⟨"sin", []⟩ [] node0 ctx0).1 (by decide),
    (math_dispatch_requires_single_signature mathRef ⟨"random", []⟩ [numSig] node0 ctx0).2
      (by decide) _⟩

/-- A successful runtime-function declaration carries exactly the calling
attributes it was created with. -/
theorem createRuntimeFunction_ok_attributes (resolvedFunction : ResolvedFunction)
    (context : CodeGenerationContext) (attributes : CallAttributes)
    (p : ResolvedFunctionReference × LLVMModule)
    (h : ResolvedFunctionReference.createRuntimeFunction resolvedFunction context attributes =
      .ok p) : p.1.attributes = attributes := by
  unfold ResolvedFunctionReference.createRuntimeFunction at h
  cases he : toLLVMType context resolvedFunction.returnType with
  | error e => rw [he] at h; simp at h
  | ok returnType =>
    rw [he] at h
    cases hp : mapParameterTypes context resolvedFunction.parameters with
    | error e => rw [hp] at h; simp at h
    | ok parameterTypes =>
      rw [hp] at h
      cases hf : context.module.getFunction resolvedFunction.functionName with
      | some fn =>
        rw [hf] at h
        simp at h
        rw [← h]
      | none =>
        rw [hf] at h
        simp at h
        rw [← h]

/-- `createPowFunction` always binds its reference to a function declared
as `llvm.pow.f64`. -/
theorem createPowFunction_intrinsic_name (numberType mathType : TsType)
    (context : CodeGenerationContext) :
    (MathObjectReference.createPowFunction numberType mathType context).1.fn.name =
      "llvm.pow.f64" := by
  unfold MathObjectReference.createPowFunction
  cases hf : context.module.getFunction "llvm.pow.f64" with
  | some f =>
    have hp : f.name = "llvm.pow.f64" := by
      unfold LLVMModule.getFunction at hf
      have := List.find?_some hf
      simpa using this
    simp [hf, ResolvedFunctionReference.create, hp]
  | none => simp [hf, ResolvedFunctionReference.create]

/-- `createSqrtFunction` always binds its reference to a function declared
as `llvm.sqrt.f64`. -/
theorem createSqrtFunction_intrinsic_name (self : MathObjectReference)
    (signature : Signature) (context : CodeGenerationContext) :
    (MathObjectReference.createSqrtFunction self signature context).1.fn.name =
      "llvm.sqrt.f64" := by
  unfold MathObjectReference.createSqrtFunction
  cases hf : context.module.getFunction "llvm.sqrt.f64" with
  | some f =>
    have hp : f.name = "llvm.sqrt.f64" := by
      unfold LLVMModule.getFunction at hf
      have := List.find?_some hf
      simpa using this
    simp [hf, ResolvedFunctionReference.create, hp]
  | none => simp [hf, ResolvedFunctionReference.create]

/-- Claim C2: for the Math built-in object, resolving a callable member
named sin, cos or log produces a runtime-function reference created with
the calling attributes { readnone, noUnwind }; resolving pow or sqrt
produces a reference bound to the machine intrinsic (`llvm.pow.f64` /
`llvm.sqrt.f64`); and resolving any other member name fails with the
`BuiltInMethodNotSupported` diagnostic (code 100000) carrying the object
name "Math" and the requested member name. -/
theorem math_member_dispatch :
    (∀ (self : MathObjectReference) (symbol : TsSymbol) (signature : Signature)
        (propertyAccessExpression : TsNode) (context : CodeGenerationContext)
        (r : ResolvedFunctionReference) (m : LLVMModule),
      (symbol.name = "sin" ∨ symbol.name = "cos" ∨ symbol.name = "log") →
      MathObjectReference.createFunctionFor self symbol [signature]
        propertyAccessExpression context = .ok (r, m) →
      r.attributes = ⟨true, true⟩) ∧
    (∀ (self : MathObjectReference) (symbol : TsSymbol) (signature : Signature)
        (propertyAccessExpression : TsNode) (context : CodeGenerationContext),
      symbol.name = "pow" →
      MathObjectReference.createFunctionFor self symbol [signature]
          propertyAccessExpression context =
        .ok (MathObjectReference.createPowFunction signature.returnType
          self.objectType context) ∧
      (MathObjectReference.createPowFunction signature.returnType
        self.objectType context).1.fn.name = "llvm.pow.f64") ∧
    (∀ (self : MathObjectReference) (symbol : TsSymbol) (signature : Signature)
        (propertyAccessExpression : TsNode) (context : CodeGenerationContext),
      symbol.name = "sqrt" →
      MathObjectReference.createFunctionFor self symbol [signature]
          propertyAccessExpression context =
        .ok (MathObjectReference.createSqrtFunction self signature context) ∧
      (MathObjectReference.createSqrtFunction self signature context).1.fn.name =
        "llvm.sqrt.f64") ∧
    (∀ (self : MathObjectReference) (symbol : TsSymbol) (signature : Signature)
        (propertyAccessExpression : TsNode) (context : CodeGenerationContext),
      ¬(symbol.name = "log" ∨ symbol.name = "sin" ∨ symbol.name = "cos") →
      ¬symbol.name = "pow" → ¬symbol.name = "sqrt" →
      MathObjectReference.createFunctionFor self symbol [signature]
          propertyAccessExpression context =
        .error (.diagnostic ⟨propertyAccessExpression, 100000,
          "The method '" ++ (symbol.name ++
            "' of the built in object 'Math' is not supported.")⟩)) := by
  refine ⟨?_, ?_, ?_, ?_⟩
  · intro self symbol signature propertyAccessExpression context r m hname hok
    simp only [MathObjectReference.createFunctionFor] at hok
    rw [if_pos (by tauto)] at hok
    exact createRuntimeFunction_ok_attributes _ _ _ _ hok
  · intro self symbol signature propertyAccessExpression context hname
    refine ⟨?_, createPowFunction_intrinsic_name _ _ _⟩
    simp only [MathObjectReference.createFunctionFor]
    rw [if_neg (by simp [hname]), if_pos hname]
  · intro self symbol signature propertyAccessExpression context hname
    refine ⟨?_, createSqrtFunction_intrinsic_name _ _ _⟩
    simp only [MathObjectReference.createFunctionFor]
    rw [if_neg (by simp [hname]), if_neg (by simp [hname]), if_pos hname]
  · intro self symbol signature propertyAccessExpression context h1 h2 h3
    simp only [MathObjectReference.createFunctionFor]
    rw [if_neg h1, if_neg h2, if_neg h3]
    have hce := createException_ok propertyAccessExpression
      diagnostics.BuiltInMethodNotSupported [symbol.name, "Math"]
      (by decide) (utilFormat_ne_empty _ _ (by decide) (by decide))
    have hmsg : utilFormat diagnostics.BuiltInMethodNotSupported.message
        [symbol.name, "Math"] =
        "The method '" ++ (symbol.name ++
          "' of the built in object 'Math' is not supported.") := rfl
    rw [hmsg] at hce
    simp only [diagnostics.BuiltInMethodNotSupported] at hce
    simp [raiseAsError, CodeGenerationDiagnostic.builtInMethodNotSupported,
      diagnostics.BuiltInMethodNotSupported, hce]

/-- Witness for claim C2: concrete dispatches for `sin`, `pow`, `sqrt` and
the unsupported member `random`. -/
theorem math_member_dispatch_witness :
    sinRuntimeRef.attributes = ⟨true, true⟩ ∧
    (MathObjectReference.createFunctionFor mathRef ⟨"pow", []⟩ [numSig] node0 ctx0 =
      .ok (MathObjectReference.createPowFunction numberTy objTy ctx0) ∧
      (MathObjectReference.createPowFunction numberTy objTy ctx0).1.fn.name =
        "llvm.pow.f64") ∧
    (MathObjectReference.createFunctionFor mathRef ⟨"sqrt", []⟩ [numSig] node0 ctx0 =
      .ok (MathObjectReference.createSqrtFunction mathRef numSig ctx0) ∧
      (MathObjectReference.createSqrtFunction mathRef numSig ctx0).1.fn.name =
        "llvm.sqrt.f64") ∧
    MathObjectReference.createFunctionFor mathRef ⟨"random", []⟩ [numSig] node0 ctx0 =
      .error (.diagnostic ⟨node0, 100000,
        "The method '" ++ ("random" ++
          "' of the built in object 'Math' is not supported.")⟩) := by
  refine ⟨?_, ?_, ?_, ?_⟩
  · have hok : MathObjectReference.createFunctionFor mathRef ⟨"sin", []⟩ [numSig] node0 ctx0 =
        .ok (sinRuntimeRef, sinModuleAfter) := by
      simp [MathObjectReference.createFunctionFor,
        ResolvedFunctionReference.createRuntimeFunction, mapParameterTypes,
        createResolvedFunctionFromSignature, mathRef, numSig, ctx0, emptyModule,
        LLVMModule.getFunction, sinRuntimeRef, sinModuleAfter, toLLVMType, numberTy,
        numberFlags, emptyFlags, TsType.flags, objTy]
    exact math_member_dispatch.1 mathRef ⟨"sin", []⟩ numSig node0 ctx0 sinRuntimeRef
      sinModuleAfter (Or.inl rfl) hok
  · exact math_member_dispatch.2.1 mathRef ⟨"pow", []⟩ numSig node0 ctx0 rfl
  · exact math_member_dispatch.2.2.1 mathRef ⟨"sqrt", []⟩ numSig node0 ctx0 rfl
  · exact math_member_dispatch.2.2.2 mathRef ⟨"random", []⟩ numSig node0 ctx0
      (by decide) (by decide) (by decide)
